import Mathlib

/-!
Variant.h: a single-value, type-erased container.

A shallow embedding of `src/Variant.h` and the properties of it that the
specification states.

How the C++ is represented:

* **Types.**  `Ty` is a small universe of cv-unqualified object types a caller
  may store: a few representative value types and `Variant` itself.  `SrcType`
  is a type as written at a call site: a `Ty` with `const`/`volatile`
  qualification and a reference kind.  `TypeWrapper.TYPE` is the alias of the
  same name (lines 11-18).
* **Values.**  `Value` is a value of one of the types of `Ty`.  A `Variant`
  object is its only data member `m_Impl`.  `std::unique_ptr` is an owning
  pointer with exactly one owner, so a pointer and the object it owns are
  represented together: `UniquePtr.nullptr`, or `UniquePtr.owning impl`.
  A `VariantImpl<T>` object is the pair of `T` (what `typeid` reports for it)
  and its member `m_Value`.
* **Arguments.**  The constructors, `setValue` and `fromValue` take a forwarding
  reference `T&&`.  An `Arg` is the argument expression bound to it: its static
  type, whether it is `const`, its value category, the value it denotes and,
  when it names a container in scope (`a`, `std::move( a )`), which one.
  `Arg.deduced` is the `T` that template argument deduction gives.  When the
  move constructor takes a named container, that container is left empty:
  `Arg.consumed`, `Store.afterMove`.
* **The stored types' own constructors** are not code of this header.
  Initialising a stored type from an argument of the *same* type is a copy or a
  move and yields an equal value (that is what copy-constructible means).
  Initialising it from another type, or from a braced list, is whatever that
  type defines: the table `ValueTypes` is a parameter of the model.
* **Initialising a `Variant`** from an argument is code of this header, and
  which of its three one-argument constructors runs is decided by overload
  resolution: `Variant.init`.
* **Recursion.**  `Variant(T&&)` constructs a `VariantImpl`, whose constructor
  initialises `m_Value`, which for a stored `Variant` is again a `Variant`
  constructor call.  These functions take a fuel argument that bounds the
  depth of the call stack; `Err.outOfFuel` is returned when it is exceeded.
* **Objects with identity.**  The assignment operators compare addresses
  (`&rhs != this`).  Named containers live in a `Store`, indexed by `Loc`.
* **Build.**  `value` is modelled with assertions enabled (no `NDEBUG`).  On an
  empty container it dereferences a null `unique_ptr`, which the language
  leaves undefined: `RetrievalFailure.undefinedBehaviour` stands for whatever
  an implementation then does, a thrown `std::bad_typeid` included.
-/

namespace VariantSpec

/-! ## Types -/

/-- Cv-unqualified, non-reference types that can be stored. -/
inductive Ty
  | int
  | bool
  | string
  | cstr
  | record
  | variant
  deriving DecidableEq, Repr

/-- Reference kind of a type written at a call site. -/
inductive RefKind
  | none
  | lvalue
  | rvalue
  deriving DecidableEq, Repr

/-- A type as it is written (or deduced) at a call site: `base`, qualified by
`const` and/or `volatile`, possibly behind a reference.  For a reference
type the qualifiers are those of the referred-to type, as in `const int&`. -/
structure SrcType where
  base : Ty
  isConst : Bool
  isVolatile : Bool
  ref : RefKind
  deriving DecidableEq, Repr

/-- `std::remove_reference<T>::type`. -/
def remove_reference (T : SrcType) : SrcType :=
  { T with ref := RefKind.none }

/-- `std::remove_cv<T>::type`: removes the top-level qualifiers.  A reference
type has none of its own, so it is left as it is. -/
def remove_cv (T : SrcType) : SrcType :=
  match T.ref with
  | RefKind.none => { T with isConst := false, isVolatile := false }
  | _ => T

/-- `TypeWrapper<T>::TYPE` (line 14). -/
def TypeWrapper.TYPE (T : SrcType) : SrcType :=
  remove_cv (remove_reference T)

/-- `TypeWrapper<T>::CONSTTYPE` (line 15). -/
def TypeWrapper.CONSTTYPE (T : SrcType) : SrcType :=
  { TypeWrapper.TYPE T with isConst := true }

/-- `TypeWrapper<T>::REFTYPE` (line 16). -/
def TypeWrapper.REFTYPE (T : SrcType) : SrcType :=
  { TypeWrapper.TYPE T with ref := RefKind.lvalue }

/-- `TypeWrapper<T>::CONSTREFTYPE` (line 17). -/
def TypeWrapper.CONSTREFTYPE (T : SrcType) : SrcType :=
  { TypeWrapper.TYPE T with isConst := true, ref := RefKind.lvalue }

/-- The canonical storage type named by `T`: the object type of
`TypeWrapper<T>::TYPE`, the template argument of `VariantImpl`. -/
def canonical (T : SrcType) : Ty :=
  (TypeWrapper.TYPE T).base

/-- The unqualified, non-reference spelling of an object type. -/
def Ty.plain (T : Ty) : SrcType :=
  { base := T, isConst := false, isVolatile := false, ref := RefKind.none }

/-! ## Values and objects -/

mutual
/-- A value of one of the types of `Ty`. -/
inductive Value
  | int (n : Int)
  | bool (b : Bool)
  | string (s : String)
  | cstr (s : String)
  | record (x y : Int)
  | variant (c : Variant)
  deriving DecidableEq
/-- A `VariantImpl<T>` object (lines 100-115): `T` and the member `m_Value`. -/
inductive VariantImpl
  | mk (T : Ty) (m_Value : Value)
  deriving DecidableEq
/-- A `std::unique_ptr<AbstractVariantImpl>` together with what it owns. -/
inductive UniquePtr
  | nullptr
  | owning (impl : VariantImpl)
  deriving DecidableEq
/-- A `Variant` object (lines 23-118): its data member `m_Impl` (line 117). -/
inductive Variant
  | mk (m_Impl : UniquePtr)
  deriving DecidableEq
end

/-- The template argument `T` of a `VariantImpl<T>` object. -/
def VariantImpl.T : VariantImpl → Ty
  | VariantImpl.mk T _ => T

/-- The member `m_Value` (line 114). -/
def VariantImpl.m_Value : VariantImpl → Value
  | VariantImpl.mk _ v => v

/-- The member `m_Impl` (line 117). -/
def Variant.m_Impl : Variant → UniquePtr
  | Variant.mk p => p

/-- `Variant()` (lines 26-29): `m_Impl{ nullptr }`. -/
def Variant.default : Variant :=
  Variant.mk UniquePtr.nullptr

/-- `isEmpty` (lines 88-91): `return !m_Impl;`. -/
def Variant.isEmpty (self : Variant) : Bool :=
  match self.m_Impl with
  | UniquePtr.nullptr => true
  | UniquePtr.owning _ => false

/-- The dynamic type of a container: the `T` of the `VariantImpl<T>` it owns,
if it owns one. -/
def Variant.dynamicType (self : Variant) : Option Ty :=
  match self.m_Impl with
  | UniquePtr.nullptr => none
  | UniquePtr.owning impl => some impl.T

/-! ## Arguments -/

/-- Value category of an argument expression. -/
inductive Category
  | lvalue
  | rvalue
  deriving DecidableEq, Repr

/-- The identity of a `Variant` object. -/
abbrev Loc := Nat

/-- An argument expression bound to a forwarding reference `T&&`.  `source` is
the container in scope that the expression names, as `a` and `std::move( a )`
name `a`; it is `none` for a temporary and for an object that is not a
container in scope. -/
structure Arg where
  type : Ty
  isConst : Bool
  category : Category
  val : Value
  source : Option Loc := none
  deriving DecidableEq

/-- The template argument deduced for `T` from an argument bound to `T&&`:
`cv X&` for an lvalue of type `cv X`, and `cv X` for an rvalue. -/
def Arg.deduced (a : Arg) : SrcType :=
  { base := a.type
    isConst := a.isConst
    isVolatile := false
    ref := match a.category with
      | Category.lvalue => RefKind.lvalue
      | Category.rvalue => RefKind.none }

/-- A temporary (a non-const rvalue) of type `T` with value `v`. -/
def Arg.temporary (T : Ty) (v : Value) : Arg :=
  { type := T, isConst := false, category := Category.rvalue, val := v }

/-- The named container that a move constructor call on this argument leaves
empty: the argument is a non-const rvalue of type `Variant`, the one case in
which `Variant.init` runs `Variant( Variant&& )` (lines 38-41), and it names a
container in scope. -/
def Arg.consumed (a : Arg) : Option Loc :=
  match a.type, a.category, a.isConst with
  | Ty.variant, Category.rvalue, false => a.source
  | _, _, _ => none

/-- The constructors of the stored types, which belong to the caller.
`construct T a` is the value of `T(a)` for an argument of another type
than `T`, and `braces T args` is the value of `T{args...}`; `none` where the
type has no such constructor. -/
structure ValueTypes where
  construct : Ty → Arg → Option Value
  braces : Ty → List Arg → Option Value

/-- Why a construction produced no object. -/
inductive Err
  /-- The call stack grew past the fuel. -/
  | outOfFuel
  /-- The stored type has no constructor for the argument (ill-formed). -/
  | noViableConstructor
  deriving DecidableEq, Repr

deriving instance DecidableEq for Except

/-- Lifts the answer of a stored type's constructor table. -/
def liftCtor : Option Value → Except Err Value
  | some v => Except.ok v
  | none => Except.error Err.noViableConstructor

/-! ## Construction (lines 26-41, 61-73, 100-112) -/

/-- `Variant( Variant&& other )` (lines 38-41): `m_Impl{ std::move( other.m_Impl ) }`.
Returns the constructed object and `other` as it is left. -/
def Variant.moveCtor (other : Variant) : Variant × Variant :=
  (Variant.mk other.m_Impl, Variant.mk UniquePtr.nullptr)

mutual
/-- The initialisation `T m_Value( arg )` of a stored value of type `T`.  For a
stored `Variant` it is a `Variant` constructor call; for another type it is a
copy or move when the argument has that type, and the type's own converting
constructor otherwise. -/
def directInit (E : ValueTypes) : Nat → Ty → Arg → Except Err Value
  | 0, _, _ => Except.error Err.outOfFuel
  | fuel + 1, Ty.variant, arg =>
    match Variant.init E fuel arg with
    | Except.ok c => Except.ok (Value.variant c)
    | Except.error e => Except.error e
  | _ + 1, T, arg =>
    if arg.type = T then Except.ok arg.val else liftCtor (E.construct T arg)
/-- `VariantImpl<T>::VariantImpl( U&& inValue )` (lines 103-107):
`m_Value( std::forward<U>( inValue ) )`. -/
def VariantImpl.ctor (E : ValueTypes) : Nat → Ty → Arg → Except Err VariantImpl
  | 0, _, _ => Except.error Err.outOfFuel
  | fuel + 1, T, inValue =>
    match directInit E fuel T inValue with
    | Except.ok v => Except.ok (VariantImpl.mk T v)
    | Except.error e => Except.error e
/-- `VariantImpl<T>::clone` (lines 109-112): `new VariantImpl<T>{ m_Value }`.
`clone` is not a const member, so `m_Value` is a non-const lvalue of type `T`. -/
def VariantImpl.clone (E : ValueTypes) : Nat → VariantImpl → Except Err VariantImpl
  | 0, _ => Except.error Err.outOfFuel
  | fuel + 1, self =>
    VariantImpl.ctor E fuel self.T
      { type := self.T, isConst := false, category := Category.lvalue, val := self.m_Value }
/-- `Variant( const Variant& other )` (lines 33-36):
`m_Impl{ !other.isEmpty() ? other.m_Impl->clone() : nullptr }`. -/
def Variant.copyCtor (E : ValueTypes) : Nat → Variant → Except Err Variant
  | 0, _ => Except.error Err.outOfFuel
  | fuel + 1, other =>
    match other.m_Impl with
    | UniquePtr.owning impl =>
      match VariantImpl.clone E fuel impl with
      | Except.ok p => Except.ok (Variant.mk (UniquePtr.owning p))
      | Except.error e => Except.error e
    | UniquePtr.nullptr => Except.ok (Variant.mk UniquePtr.nullptr)
/-- `template<typename T> explicit Variant( T&& inValue )` (lines 69-73):
`m_Impl( new VariantImpl<typename TypeWrapper<T>::TYPE>{ std::forward<T>( inValue ) } )`. -/
def Variant.valueCtor (E : ValueTypes) : Nat → Arg → Except Err Variant
  | 0, _ => Except.error Err.outOfFuel
  | fuel + 1, inValue =>
    match VariantImpl.ctor E fuel (canonical inValue.deduced) inValue with
    | Except.ok p => Except.ok (Variant.mk (UniquePtr.owning p))
    | Except.error e => Except.error e
/-- The direct-initialisation `Variant( arg )`: overload resolution among the
three one-argument constructors.

* The copy constructor takes `const Variant&`, the move constructor `Variant&&`;
  both need an argument of type `Variant`.
* The template takes `T&&`, which binds to every argument with no conversion.

For a non-const rvalue `Variant` the move constructor and the template tie and
the non-template wins.  For a const lvalue the copy constructor and the template
tie and the non-template wins.  For a non-const lvalue the template binds
`Variant&`, a better match than `const Variant&`; for a const rvalue it binds
`const Variant&&`, a better match than `const Variant&`: the template wins. -/
def Variant.init (E : ValueTypes) : Nat → Arg → Except Err Variant
  | 0, _ => Except.error Err.outOfFuel
  | fuel + 1, arg =>
    match arg.type, arg.val, arg.category, arg.isConst with
    | Ty.variant, Value.variant other, Category.rvalue, false =>
      Except.ok (Variant.moveCtor other).1
    | Ty.variant, Value.variant other, Category.lvalue, true =>
      Variant.copyCtor E fuel other
    | _, _, _, _ => Variant.valueCtor E fuel arg
end

/-- `Variant::fromValue<TargetType>( T&& inValue )` (lines 61-67):
`make_unique<VariantImpl<typename TypeWrapper<TargetType>::TYPE>>( std::forward<T>( inValue ) )`
assigned to the `m_Impl` of a default-constructed `result`. -/
def Variant.fromValue (E : ValueTypes) (fuel : Nat) (TargetType : SrcType) (inValue : Arg) :
    Except Err Variant :=
  match VariantImpl.ctor E fuel (canonical TargetType) inValue with
  | Except.ok p => Except.ok (Variant.mk (UniquePtr.owning p))
  | Except.error e => Except.error e

/-- The braced initialisation `TargetType{ args... }` of a temporary.  For
`Variant` the list selects a constructor: none for the empty list, and
`Variant.init` for one argument.  For another type it is a copy or move when the
list is one argument of that type, and the type's own rule otherwise. -/
def listInit (E : ValueTypes) (fuel : Nat) : Ty → List Arg → Except Err Value
  | Ty.variant, [] => Except.ok (Value.variant Variant.default)
  | Ty.variant, [a] =>
    match Variant.init E fuel a with
    | Except.ok c => Except.ok (Value.variant c)
    | Except.error e => Except.error e
  | Ty.variant, _ => Except.error Err.noViableConstructor
  | T, args =>
    match args with
    | [a] => if a.type = T then Except.ok a.val else liftCtor (E.braces T args)
    | _ => liftCtor (E.braces T args)

/-- `make_variant<TargetType>( args... )` (lines 120-124):
`return Variant{ TargetType{ std::forward<Args>( args )... } };`. -/
def make_variant (E : ValueTypes) (fuel : Nat) (TargetType : Ty) (args : List Arg) :
    Except Err Variant :=
  match listInit E fuel TargetType args with
  | Except.ok t => Variant.init E fuel (Arg.temporary TargetType t)
  | Except.error e => Except.error e

/-! ## Retrieval (lines 75-80) -/

/-- How a call of `value` ends without returning. -/
inductive RetrievalFailure
  /-- The container is empty: `*m_Impl` in the asserted expression dereferences a
  null `unique_ptr`.  The language leaves what follows undefined; an
  implementation may throw `std::bad_typeid` or stop the program. -/
  | undefinedBehaviour
  /-- The `assert` fails: "Type in Variant mismatches requested type". -/
  | assertionFailed
  deriving DecidableEq, Repr

/-- `value<T>()` (lines 75-80).  The `assert` compares `typeid( *m_Impl )`, the
type of the owned `VariantImpl`, with `VariantImpl<TypeWrapper<T>::TYPE>`;
when it holds, `m_Value` of the owned object is returned.  There is no check
for a null `m_Impl` before `*m_Impl` is evaluated. -/
def Variant.value (self : Variant) (T : SrcType) : Except RetrievalFailure Value :=
  match self.m_Impl with
  | UniquePtr.nullptr => Except.error RetrievalFailure.undefinedBehaviour
  | UniquePtr.owning impl =>
    if impl.T = canonical T then Except.ok impl.m_Value
    else Except.error RetrievalFailure.assertionFailed

/-! ## Named containers (lines 33-59, 82-86) -/

/-- The `Variant` objects in scope. -/
abbrev Store := Loc → Variant

/-- The store with the object at `l` replaced. -/
def Store.set (st : Store) (l : Loc) (c : Variant) : Store :=
  fun x => if x = l then c else st x

/-- The scope once the argument has been taken: a named container handed over
as a non-const rvalue is left with a null `m_Impl` (line 39). -/
def Store.afterMove (st : Store) (a : Arg) : Store :=
  match a.consumed with
  | some l => st.set l (Variant.mk UniquePtr.nullptr)
  | none => st

/-- The argument expression that names the container at `l`: `l` itself, or
`std::as_const( l )`, or `std::move( l )`, by qualification and category. -/
def Arg.named (st : Store) (l : Loc) (isConst : Bool) (category : Category) : Arg :=
  { type := Ty.variant, isConst := isConst, category := category,
    val := Value.variant (st l), source := some l }

/-- The declaration `Variant this;` (lines 26-29). -/
def defaultConstruct (st : Store) (this : Loc) : Store :=
  st.set this Variant.default

/-- The declaration `Variant this( arg );`: the constructor is the one that
overload resolution selects for `arg`; a named container it moves from is
left empty. -/
def construct (E : ValueTypes) (fuel : Nat) (st : Store) (this : Loc) (arg : Arg) :
    Except Err Store :=
  match Variant.init E fuel arg with
  | Except.ok c => Except.ok ((st.afterMove arg).set this c)
  | Except.error e => Except.error e

/-- A new object `this` made by `Variant( const Variant& other )` (lines 33-36)
from the object at `other`, as in `Variant this = other;` (the template is
`explicit`, so it is no candidate in a copy-initialisation). -/
def copyConstruct (E : ValueTypes) (fuel : Nat) (st : Store) (this other : Loc) :
    Except Err Store :=
  match Variant.copyCtor E fuel (st other) with
  | Except.ok c => Except.ok (st.set this c)
  | Except.error e => Except.error e

/-- A new object `this` made by `Variant( Variant&& other )` (lines 38-41) from
the object at `other`. -/
def moveConstruct (st : Store) (this other : Loc) : Store :=
  ((st.set other (Variant.moveCtor (st other)).2).set this (Variant.moveCtor (st other)).1)

/-- `operator=( const Variant& rhs )` (lines 43-50). -/
def copyAssign (E : ValueTypes) (fuel : Nat) (st : Store) (this rhs : Loc) :
    Except Err Store :=
  if rhs ≠ this then
    match (st rhs).m_Impl with
    | UniquePtr.owning impl =>
      match VariantImpl.clone E fuel impl with
      | Except.ok p => Except.ok (st.set this (Variant.mk (UniquePtr.owning p)))
      | Except.error e => Except.error e
    | UniquePtr.nullptr => Except.ok (st.set this (Variant.mk UniquePtr.nullptr))
  else Except.ok st

/-- `operator=( Variant&& rhs )` (lines 52-59): `m_Impl = std::move( rhs.m_Impl )`
gives `this` the pointer of `rhs` and leaves `rhs` with a null pointer. -/
def moveAssign (st : Store) (this rhs : Loc) : Store :=
  if rhs ≠ this then
    (st.set rhs (Variant.mk UniquePtr.nullptr)).set this (Variant.mk (st rhs).m_Impl)
  else st

/-- `setValue( T&& inValue )` (lines 82-86):
`m_Impl.reset( new VariantImpl<typename TypeWrapper<T>::TYPE>{ std::forward<T>( inValue ) } )`.
The new holder is constructed first, which leaves a named container it moves
from empty (lines 105, 38-41); then `this` takes the holder. -/
def setValue (E : ValueTypes) (fuel : Nat) (st : Store) (this : Loc) (inValue : Arg) :
    Except Err Store :=
  match VariantImpl.ctor E fuel (canonical inValue.deduced) inValue with
  | Except.ok p =>
    Except.ok ((st.afterMove inValue).set this (Variant.mk (UniquePtr.owning p)))
  | Except.error e => Except.error e

/-! ## An instance of the stored types' constructors -/

/-- A table for the types of `Ty`: `int` from `bool`, `string` from a C string,
and the braced forms `int{}`, `bool{}`, `string{}`, `record{}`, `record{x}`,
`record{x, y}`. -/
def stdTypes : ValueTypes where
  construct := fun T a =>
    match T, a.val with
    | Ty.int, Value.bool b => some (Value.int (if b then 1 else 0))
    | Ty.string, Value.cstr s => some (Value.string s)
    | _, _ => none
  braces := fun T args =>
    match T, args.map Arg.val with
    | Ty.int, [] => some (Value.int 0)
    | Ty.bool, [] => some (Value.bool false)
    | Ty.string, [] => some (Value.string "")
    | Ty.string, [Value.cstr s] => some (Value.string s)
    | Ty.record, [] => some (Value.record 0 0)
    | Ty.record, [Value.int x] => some (Value.record x 0)
    | Ty.record, [Value.int x, Value.int y] => some (Value.record x y)
    | _, _ => none

/-- The arguments of type `Variant` that overload resolution hands to the
template constructor: a non-const lvalue, or a const rvalue. -/
def Arg.bindsTemplate (a : Arg) : Prop :=
  a.type = Ty.variant ∧
    ((a.category = Category.lvalue ∧ a.isConst = false) ∨
     (a.category = Category.rvalue ∧ a.isConst = true))

instance (a : Arg) : Decidable a.bindsTemplate := by
  unfold Arg.bindsTemplate
  infer_instance

/-- The in-place helper as the specification describes it: construct the
target value `TargetType{ args... }` as an object of its own, then hand that
temporary to the container's constructor, `Variant( t )`, which overload
resolution selects as for any other argument. -/
def wrapDirect (E : ValueTypes) (fuel : Nat) (TargetType : Ty) (args : List Arg) :
    Except Err Variant :=
  match listInit E fuel TargetType args with
  | Except.ok t => Variant.init E fuel (Arg.temporary TargetType t)
  | Except.error e => Except.error e

/-- Whether initialising a stored value from the argument returns: always for
a type other than `Variant` (given a constructor for it); for a `Variant` when it
is a non-const rvalue (moved) or a const lvalue that does not hold a `Variant`
(copied). -/
def Arg.initialises (w : Arg) : Bool :=
  match w.type, w.val, w.category, w.isConst with
  | Ty.variant, Value.variant _, Category.rvalue, false => true
  | Ty.variant, Value.variant o, Category.lvalue, true =>
    !(decide (o.dynamicType = some Ty.variant))
  | Ty.variant, _, _, _ => false
  | _, _, _, _ => true

/-- A container that owns a `VariantImpl<T>` with `m_Value = v`. -/
def Variant.holding (T : Ty) (v : Value) : Variant :=
  Variant.mk (UniquePtr.owning (VariantImpl.mk T v))

/-- A scope in which every object is an empty container. -/
def allEmpty : Store :=
  fun _ => Variant.default

theorem canonical_deduced (a : Arg) : canonical a.deduced = a.type := by
  cases a with
  | mk T c cat v src => cases cat <;> rfl

theorem Store.set_same (st : Store) (l : Loc) (c : Variant) : st.set l c l = c := by
  simp [Store.set]

theorem Store.set_other (st : Store) (l x : Loc) (c : Variant) (h : x ≠ l) :
    st.set l c x = st x := by
  simp [Store.set, h]

/-- An argument of a type other than `Variant` moves no container. -/
theorem Arg.consumed_other (a : Arg) (h : a.type ≠ Ty.variant) : a.consumed = none := by
  cases a with
  | mk T c cat v src => cases T <;> simp_all [Arg.consumed]

/-- An argument that names no container moves none. -/
theorem Arg.consumed_unnamed (a : Arg) (h : a.source = none) : a.consumed = none := by
  cases a with
  | mk T c cat v src =>
    simp only at h
    subst h
    cases T <;> cases cat <;> cases c <;> rfl

theorem Store.afterMove_none (st : Store) (a : Arg) (h : a.consumed = none) :
    st.afterMove a = st := by
  simp [Store.afterMove, h]

/-- An object other than the one moved from is as it was. -/
theorem Store.afterMove_other (st : Store) (a : Arg) (l : Loc) (h : a.consumed ≠ some l) :
    (st.afterMove a) l = st l := by
  unfold Store.afterMove
  cases hc : a.consumed with
  | none => rfl
  | some x =>
    have hx : l ≠ x := by
      intro hl
      exact h (by rw [hc, hl])
    simp [Store.set, hx]

/-- The object moved from is empty. -/
theorem Store.afterMove_consumed (st : Store) (a : Arg) (l : Loc) (h : a.consumed = some l) :
    (st.afterMove a) l = Variant.mk UniquePtr.nullptr := by
  simp [Store.afterMove, h, Store.set]

theorem VariantImpl.mk_T_m_Value (impl : VariantImpl) :
    VariantImpl.mk impl.T impl.m_Value = impl := by
  cases impl; rfl

theorem Variant.mk_eta (c : Variant) : Variant.mk c.m_Impl = c := by
  cases c; rfl

/-- Initialising a stored value of a type other than `Variant` from an argument
of that type yields the argument's value. -/
theorem directInit_same (E : ValueTypes) (fuel : Nat) (T : Ty) (a : Arg)
    (hT : T ≠ Ty.variant) (ha : a.type = T) :
    directInit E (fuel + 1) T a = Except.ok a.val := by
  cases T <;> simp_all [directInit]

theorem VariantImpl.ctor_same (E : ValueTypes) (fuel : Nat) (T : Ty) (a : Arg)
    (hT : T ≠ Ty.variant) (ha : a.type = T) :
    VariantImpl.ctor E (fuel + 2) T a = Except.ok (VariantImpl.mk T a.val) := by
  simp [VariantImpl.ctor, directInit_same E fuel T a hT ha]

theorem VariantImpl.clone_same (E : ValueTypes) (fuel : Nat) (impl : VariantImpl)
    (hT : impl.T ≠ Ty.variant) :
    VariantImpl.clone E (fuel + 3) impl = Except.ok impl := by
  have h := VariantImpl.ctor_same E fuel impl.T
    { type := impl.T, isConst := false, category := Category.lvalue, val := impl.m_Value } hT rfl
  simp [VariantImpl.clone, h, VariantImpl.mk_T_m_Value]

theorem Variant.valueCtor_same (E : ValueTypes) (fuel : Nat) (a : Arg)
    (hT : a.type ≠ Ty.variant) :
    Variant.valueCtor E (fuel + 3) a
      = Except.ok (Variant.mk (UniquePtr.owning (VariantImpl.mk a.type a.val))) := by
  simp [Variant.valueCtor, canonical_deduced, VariantImpl.ctor_same E fuel a.type a hT rfl]

theorem Variant.init_other (E : ValueTypes) (fuel : Nat) (a : Arg)
    (hT : a.type ≠ Ty.variant) :
    Variant.init E (fuel + 1) a = Variant.valueCtor E fuel a := by
  cases a with
  | mk T c cat v src => cases T <;> simp_all [Variant.init]

theorem Variant.init_bindsTemplate (E : ValueTypes) (fuel : Nat) (a : Arg)
    (h : a.bindsTemplate) :
    Variant.init E (fuel + 1) a = Variant.valueCtor E fuel a := by
  cases a with
  | mk T c cat v src =>
    obtain ⟨hT, hc⟩ := h
    simp only at hT hc
    subst hT
    rcases hc with ⟨h1, h2⟩ | ⟨h1, h2⟩ <;> subst h1 <;> subst h2 <;> cases v <;>
      simp [Variant.init]

/-- Handed a `Variant` that binds to the template, the template constructor and
the `VariantImpl` constructor call each other without end: whatever the fuel,
none of them returns. -/
theorem template_recursion (E : ValueTypes) (fuel : Nat) (a : Arg) (h : a.bindsTemplate) :
    Variant.init E fuel a = Except.error Err.outOfFuel ∧
    Variant.valueCtor E fuel a = Except.error Err.outOfFuel ∧
    VariantImpl.ctor E fuel Ty.variant a = Except.error Err.outOfFuel ∧
    directInit E fuel Ty.variant a = Except.error Err.outOfFuel := by
  induction fuel with
  | zero => simp [Variant.init, Variant.valueCtor, VariantImpl.ctor, directInit]
  | succ n ih =>
    obtain ⟨h1, h2, h3, h4⟩ := ih
    refine ⟨?_, ?_, ?_, ?_⟩
    · rw [Variant.init_bindsTemplate E n a h, h2]
    · simp [Variant.valueCtor, canonical_deduced, h.1, h3]
    · simp [VariantImpl.ctor, h4]
    · simp [directInit, h1]

/-- Cloning a holder of a `Variant` never returns: `clone` passes `m_Value` as a
non-const lvalue. -/
theorem VariantImpl.clone_variant (E : ValueTypes) (fuel : Nat) (v : Value) :
    VariantImpl.clone E fuel (VariantImpl.mk Ty.variant v) = Except.error Err.outOfFuel := by
  cases fuel with
  | zero => rfl
  | succ n =>
    have h : Arg.bindsTemplate
        { type := Ty.variant, isConst := false, category := Category.lvalue, val := v } :=
      ⟨rfl, Or.inl ⟨rfl, rfl⟩⟩
    simpa [VariantImpl.clone, VariantImpl.T, VariantImpl.m_Value] using
      (template_recursion E n _ h).2.2.1

/-- What the `VariantImpl<T>` constructor returns is a `VariantImpl<T>`. -/
theorem VariantImpl.ctor_T (E : ValueTypes) (fuel : Nat) (T : Ty) (a : Arg) (p : VariantImpl)
    (h : VariantImpl.ctor E fuel T a = Except.ok p) : p.T = T := by
  cases fuel with
  | zero => simp [VariantImpl.ctor] at h
  | succ n =>
    simp only [VariantImpl.ctor] at h
    split at h
    · cases h; rfl
    · cases h

/-- A clone that is returned equals the holder it was made from. -/
theorem VariantImpl.clone_ok (E : ValueTypes) (fuel : Nat) (impl p : VariantImpl)
    (h : VariantImpl.clone E fuel impl = Except.ok p) : p = impl := by
  cases impl with
  | mk T v =>
    cases hT : decide (T = Ty.variant) with
    | true =>
      have hT := of_decide_eq_true hT
      subst hT
      rw [VariantImpl.clone_variant] at h
      cases h
    | false =>
      have hT := of_decide_eq_false hT
      match fuel, h with
      | 0, h => simp [VariantImpl.clone] at h
      | 1, h => simp [VariantImpl.clone, VariantImpl.ctor] at h
      | 2, h => simp [VariantImpl.clone, VariantImpl.ctor, directInit] at h
      | n + 3, h =>
        rw [VariantImpl.clone_same E n (VariantImpl.mk T v) hT] at h
        cases h; rfl

/-- A copy that is returned equals the container it was made from. -/
theorem Variant.copyCtor_ok (E : ValueTypes) (fuel : Nat) (other c : Variant)
    (h : Variant.copyCtor E fuel other = Except.ok c) : c = other := by
  cases other with
  | mk p =>
    cases fuel with
    | zero => simp [Variant.copyCtor] at h
    | succ n =>
      cases p with
      | nullptr =>
        simp only [Variant.copyCtor, Variant.m_Impl] at h
        cases h; rfl
      | owning impl =>
        simp only [Variant.copyCtor, Variant.m_Impl] at h
        split at h
        · rename_i q hq
          cases h
          rw [VariantImpl.clone_ok E n impl q hq]
        · cases h

/-- Copying an empty container, or one whose dynamic type is not `Variant`,
returns a container equal to it. -/
theorem Variant.copyCtor_same (E : ValueTypes) (fuel : Nat) (other : Variant)
    (h : other.dynamicType ≠ some Ty.variant) :
    Variant.copyCtor E (fuel + 4) other = Except.ok other := by
  cases other with
  | mk p =>
    cases p with
    | nullptr => simp [Variant.copyCtor, Variant.m_Impl]
    | owning impl =>
      have hT : impl.T ≠ Ty.variant := by
        intro hc
        exact h (by simp [Variant.dynamicType, Variant.m_Impl, hc])
      simp [Variant.copyCtor, Variant.m_Impl, VariantImpl.clone_same E fuel impl hT]

/-- Copying a container whose dynamic type is `Variant` never returns. -/
theorem Variant.copyCtor_variant (E : ValueTypes) (fuel : Nat) (v : Value) :
    Variant.copyCtor E fuel (Variant.holding Ty.variant v) = Except.error Err.outOfFuel := by
  cases fuel with
  | zero => rfl
  | succ n =>
    simp [Variant.copyCtor, Variant.holding, Variant.m_Impl, VariantImpl.clone_variant]

/-- Copy construction from an empty container, or from one whose dynamic type is
not `Variant`, returns; the new object equals the source and no other object
changes. -/
theorem copyConstruct_same (E : ValueTypes) (fuel : Nat) (st : Store) (this other : Loc)
    (h : (st other).dynamicType ≠ some Ty.variant) :
    copyConstruct E (fuel + 4) st this other = Except.ok (st.set this (st other)) := by
  simp [copyConstruct, Variant.copyCtor_same E fuel (st other) h]

/-- Copy assignment from another object that is empty, or whose dynamic type is
not `Variant`, returns; the destination equals the source afterwards. -/
theorem copyAssign_same (E : ValueTypes) (fuel : Nat) (st : Store) (this rhs : Loc)
    (hne : rhs ≠ this) (h : (st rhs).dynamicType ≠ some Ty.variant) :
    copyAssign E (fuel + 3) st this rhs = Except.ok (st.set this (st rhs)) := by
  cases hr : st rhs with
  | mk p =>
    rw [hr] at h
    cases p with
    | nullptr => simp [copyAssign, hne, hr, Variant.m_Impl]
    | owning impl =>
      have hT : impl.T ≠ Ty.variant := by
        intro hc
        exact h (by simp [Variant.dynamicType, Variant.m_Impl, hc])
      simp [copyAssign, hne, hr, Variant.m_Impl, VariantImpl.clone_same E fuel impl hT]

/-- A copy assignment that returns leaves the destination equal to the source
and changes no other object. -/
theorem copyAssign_ok (E : ValueTypes) (fuel : Nat) (st st1 : Store) (this rhs : Loc)
    (h : copyAssign E fuel st this rhs = Except.ok st1) : st1 = st.set this (st rhs) := by
  unfold copyAssign at h
  split at h
  · cases hr : st rhs with
    | mk p =>
      rw [hr] at h
      cases p with
      | nullptr =>
        simp only [Variant.m_Impl] at h
        cases h; rfl
      | owning impl =>
        simp only [Variant.m_Impl] at h
        split at h
        · rename_i q hq
          cases h
          rw [VariantImpl.clone_ok E fuel impl q hq]
        · cases h
  · rename_i hne
    have hEq : rhs = this := by
      by_contra hc
      exact hne hc
    cases h
    subst hEq
    funext x
    by_cases hx : x = rhs
    · subst hx; simp [Store.set]
    · simp [Store.set, hx]

/-- A copy construction that returns makes the new object equal to the source
and changes no other object. -/
theorem copyConstruct_ok (E : ValueTypes) (fuel : Nat) (st st1 : Store) (this other : Loc)
    (h : copyConstruct E fuel st this other = Except.ok st1) :
    st1 = st.set this (st other) := by
  unfold copyConstruct at h
  split at h
  · rename_i c hc
    cases h
    rw [Variant.copyCtor_ok E fuel (st other) c hc]
  · cases h

/-- A `setValue` that returns has replaced the object by an occupied container
whose dynamic type is the canonical type of the argument, and has changed no
other object. -/
theorem setValue_ok (E : ValueTypes) (fuel : Nat) (st st2 : Store) (this : Loc) (w : Arg)
    (h : setValue E fuel st this w = Except.ok st2) :
    ∃ p, VariantImpl.ctor E fuel (canonical w.deduced) w = Except.ok p ∧
      p.T = canonical w.deduced ∧
      st2 = (st.afterMove w).set this (Variant.mk (UniquePtr.owning p)) := by
  unfold setValue at h
  split at h
  · rename_i p hp
    cases h
    exact ⟨p, hp, VariantImpl.ctor_T E fuel _ w p hp, rfl⟩
  · cases h

/-- `setValue` with an argument of a type other than `Variant` returns, and the
object then holds the argument's value under the argument's type. -/
theorem setValue_same (E : ValueTypes) (fuel : Nat) (st : Store) (this : Loc) (w : Arg)
    (hT : w.type ≠ Ty.variant) :
    setValue E (fuel + 2) st this w
      = Except.ok (st.set this (Variant.holding w.type w.val)) := by
  simp [setValue, canonical_deduced, VariantImpl.ctor_same E fuel w.type w hT rfl,
    Variant.holding, Store.afterMove_none st w (Arg.consumed_other w hT)]

/-- When the initialisation of the target type from the argument returns a
value, `fromValue` returns the container that holds it under the target type. -/
theorem Variant.fromValue_of_directInit (E : ValueTypes) (fuel : Nat) (TargetType : SrcType)
    (x : Arg) (t : Value) (h : directInit E fuel (canonical TargetType) x = Except.ok t) :
    Variant.fromValue E (fuel + 1) TargetType x
      = Except.ok (Variant.holding (canonical TargetType) t) := by
  simp [Variant.fromValue, VariantImpl.ctor, h, Variant.holding]

/-- A `fromValue` that returns gives an occupied container whose dynamic type
is the canonical type of the target. -/
theorem Variant.fromValue_ok (E : ValueTypes) (fuel : Nat) (TargetType : SrcType) (x : Arg)
    (c : Variant) (h : Variant.fromValue E fuel TargetType x = Except.ok c) :
    ∃ p, p.T = canonical TargetType ∧ c = Variant.mk (UniquePtr.owning p) := by
  unfold Variant.fromValue at h
  split at h
  · rename_i p hp
    cases h
    exact ⟨p, VariantImpl.ctor_T E fuel _ x p hp, rfl⟩
  · cases h

/-- Retrieval from an occupied container with a type of the same canonical type
as its dynamic type returns the stored value. -/
theorem Variant.value_owning (p : VariantImpl) (T : SrcType) (h : p.T = canonical T) :
    (Variant.mk (UniquePtr.owning p)).value T = Except.ok p.m_Value := by
  simp [Variant.value, Variant.m_Impl, h]

/-- After `setValue` with an argument of a type `T` other than `Variant`, the
object is occupied, its dynamic type is `T`, it retrieves the argument's value
under every spelling of `T`, and retrieval under any other type fails the
assertion. -/
theorem setValue_installs (E : ValueTypes) (fuel : Nat) (st : Store) (this : Loc) (w : Arg)
    (hT : w.type ≠ Ty.variant) :
    ∃ st2, setValue E (fuel + 2) st this w = Except.ok st2 ∧
      (st2 this).isEmpty = false ∧ (st2 this).dynamicType = some w.type ∧
      (∀ T, canonical T = w.type → (st2 this).value T = Except.ok w.val) ∧
      (∀ U, canonical U ≠ w.type →
        (st2 this).value U = Except.error RetrievalFailure.assertionFailed) ∧
      (∀ l, l ≠ this → st2 l = st l) := by
  refine ⟨_, setValue_same E fuel st this w hT, ?_, ?_, ?_, ?_, ?_⟩
  · rw [Store.set_same]; rfl
  · rw [Store.set_same]; rfl
  · intro T hc
    rw [Store.set_same]
    exact Variant.value_owning (VariantImpl.mk w.type w.val) T hc.symm
  · intro U hc
    rw [Store.set_same]
    have hc2 : ¬ w.type = canonical U := fun h => hc h.symm
    simp [Variant.value, Variant.holding, Variant.m_Impl, VariantImpl.T, hc2]
  · intro l hl
    exact Store.set_other st this l _ hl

/-! ## Lemmas on containers as arguments -/

/-- `Variant( s )` for a temporary container `s` is the move constructor: the
result is the container that `s` was. -/
theorem Variant.init_temporary (E : ValueTypes) (fuel : Nat) (s : Variant) :
    Variant.init E (fuel + 1) (Arg.temporary Ty.variant (Value.variant s)) = Except.ok s := by
  simp [Variant.init, Arg.temporary, Variant.moveCtor, Variant.mk_eta]

/-- `Variant( s )` for a const lvalue container `s` is the copy constructor. -/
theorem Variant.init_const_lvalue (E : ValueTypes) (fuel : Nat) (s : Variant) :
    Variant.init E (fuel + 1)
        { type := Ty.variant, isConst := true, category := Category.lvalue,
          val := Value.variant s }
      = Variant.copyCtor E fuel s := by
  simp [Variant.init]

/-- `Variant( s )` for a non-const lvalue container `s` never returns. -/
theorem Variant.init_lvalue (E : ValueTypes) (fuel : Nat) (s : Variant) :
    Variant.init E fuel
        { type := Ty.variant, isConst := false, category := Category.lvalue,
          val := Value.variant s }
      = Except.error Err.outOfFuel :=
  (template_recursion E fuel _ ⟨rfl, Or.inl ⟨rfl, rfl⟩⟩).1

/-- For a target type other than `Variant` whose braced construction yields
`t`, `make_variant` returns the container that holds `t` under that type. -/
theorem make_variant_other (E : ValueTypes) (fuel : Nat) (TargetType : Ty) (args : List Arg)
    (t : Value) (hT : TargetType ≠ Ty.variant)
    (ht : listInit E fuel TargetType args = Except.ok t) :
    make_variant E (fuel + 4) TargetType args
      = Except.ok (Variant.holding TargetType t) := by
  have h1 : listInit E (fuel + 4) TargetType args = Except.ok t := by
    rw [← ht]
    cases TargetType <;> first | exact absurd rfl hT | rfl
  unfold make_variant
  rw [h1]
  simp only []
  rw [Variant.init_other E (fuel + 3) (Arg.temporary TargetType t) hT,
    Variant.valueCtor_same E fuel (Arg.temporary TargetType t) hT]
  rfl

/-- Initialising a stored value from an argument for which the initialisation
returns gives the holder of the argument's value under the argument's type. -/
theorem VariantImpl.ctor_initialises (E : ValueTypes) (fuel : Nat) (w : Arg)
    (h : w.initialises = true) :
    VariantImpl.ctor E (fuel + 7) (canonical w.deduced) w
      = Except.ok (VariantImpl.mk w.type w.val) := by
  rw [canonical_deduced]
  by_cases hT : w.type = Ty.variant
  · cases w with
    | mk T c cat v src =>
      simp only at hT
      subst hT
      cases v with
      | variant o =>
        cases cat <;> cases c
        · simp [Arg.initialises] at h
        · have ho : o.dynamicType ≠ some Ty.variant := by
            simpa [Arg.initialises] using h
          simp [VariantImpl.ctor, directInit, Variant.init, Variant.copyCtor_same E fuel o ho]
        · simp [VariantImpl.ctor, directInit, Variant.init, Variant.moveCtor, Variant.mk_eta]
        · simp [Arg.initialises] at h
      | int n => cases cat <;> cases c <;> simp [Arg.initialises] at h
      | bool n => cases cat <;> cases c <;> simp [Arg.initialises] at h
      | string n => cases cat <;> cases c <;> simp [Arg.initialises] at h
      | cstr n => cases cat <;> cases c <;> simp [Arg.initialises] at h
      | record x y => cases cat <;> cases c <;> simp [Arg.initialises] at h
  · exact VariantImpl.ctor_same E (fuel + 5) w.type w hT rfl

/-- `setValue` with an argument for which the initialisation returns does
return: a named container it moves from is left empty, and the object holds
the argument's value under the argument's type. -/
theorem setValue_initialises (E : ValueTypes) (fuel : Nat) (st : Store) (this : Loc) (w : Arg)
    (h : w.initialises = true) :
    setValue E (fuel + 7) st this w
      = Except.ok ((st.afterMove w).set this (Variant.holding w.type w.val)) := by
  simp [setValue, VariantImpl.ctor_initialises E fuel w h, Variant.holding]

/-- C1, as amended.  For every stored type `T` other than `Variant` and every
argument `v` of type `T` (lvalue or rvalue, const or not), `Variant( v )`
returns an occupied container once the fuel is at least 4, and `value` with any
spelling of `T` returns the value of `v`. -/
theorem C1_value_constructor_round_trip (E : ValueTypes) (fuel : Nat) (v : Arg)
    (hT : v.type ≠ Ty.variant) :
    ∃ c, Variant.init E (fuel + 4) v = Except.ok c ∧ c.isEmpty = false ∧
      ∀ T, canonical T = v.type → c.value T = Except.ok v.val := by
  refine ⟨Variant.holding v.type v.val, ?_, rfl, ?_⟩
  · rw [Variant.init_other E (fuel + 3) v hT, Variant.valueCtor_same E fuel v hT]
    rfl
  · intro T hc
    simp [Variant.value, Variant.holding, Variant.m_Impl, VariantImpl.T,
      VariantImpl.m_Value, hc]

/-- C1, witness: the integer 42, passed as a named non-const object. -/
theorem C1_value_constructor_round_trip_witness :
    Ty.int ≠ Ty.variant ∧
    ∃ c, Variant.init stdTypes 4
        { type := Ty.int, isConst := false, category := Category.lvalue, val := Value.int 42 }
          = Except.ok c ∧ c.isEmpty = false ∧
      ∀ T, canonical T = Ty.int → c.value T = Except.ok (Value.int 42) :=
  ⟨by decide,
   C1_value_constructor_round_trip stdTypes 0
    { type := Ty.int, isConst := false, category := Category.lvalue, val := Value.int 42 }
    (by decide)⟩

/-- C1, as stated, fails for `T = Variant`.  A temporary container holding the
integer 42 is passed to `Variant( v )`: the move constructor runs, the result
holds the integer, and `value<Variant>()` fails the assertion instead of
returning `v`.  No amount of fuel changes that. -/
theorem C1_counterexample :
    Variant.init stdTypes 1
        (Arg.temporary Ty.variant (Value.variant (Variant.holding Ty.int (Value.int 42))))
      = Except.ok (Variant.holding Ty.int (Value.int 42)) ∧
    (Variant.holding Ty.int (Value.int 42)).value (Ty.plain Ty.variant)
      = Except.error RetrievalFailure.assertionFailed ∧
    ¬ ∃ fuel c,
      Variant.init stdTypes fuel
          (Arg.temporary Ty.variant (Value.variant (Variant.holding Ty.int (Value.int 42))))
        = Except.ok c ∧
      c.value (Ty.plain Ty.variant)
        = Except.ok (Value.variant (Variant.holding Ty.int (Value.int 42))) := by
  refine ⟨by decide, by decide, ?_⟩
  rintro ⟨fuel, c, h1, h2⟩
  cases fuel with
  | zero => simp [Variant.init] at h1
  | succ n =>
    simp only [Variant.init, Arg.temporary, Variant.moveCtor, Variant.m_Impl,
      Variant.holding] at h1
    cases h1
    revert h2
    decide

/-- C2.  `value<T>()` returns exactly when the container is occupied and its
dynamic type is the canonical type of `T`; what it returns is the stored
value; and on an occupied container of another dynamic type the assertion
fails. -/
theorem C2_value_checks_the_dynamic_type (c : Variant) (T : SrcType) :
    ((∃ x, c.value T = Except.ok x) ↔
      (c.isEmpty = false ∧ c.dynamicType = some (canonical T))) ∧
    (∀ impl, c.m_Impl = UniquePtr.owning impl → impl.T = canonical T →
      c.value T = Except.ok impl.m_Value) ∧
    (∀ impl, c.m_Impl = UniquePtr.owning impl → impl.T ≠ canonical T →
      c.value T = Except.error RetrievalFailure.assertionFailed) := by
  cases c with
  | mk p =>
    cases p with
    | nullptr =>
      simp [Variant.value, Variant.m_Impl, Variant.isEmpty]
    | owning impl =>
      by_cases h : impl.T = canonical T
      · simp [Variant.value, Variant.m_Impl, Variant.isEmpty, Variant.dynamicType, h]
      · simp [Variant.value, Variant.m_Impl, Variant.isEmpty, Variant.dynamicType, h]

/-- C3, where the code departs from it.  A container is given a temporary empty
container by `setValue`, so that it holds a `Variant`.  Copy-constructing
another object from it, and copy-assigning it to another object, never return,
whatever the fuel: `clone` hands `m_Value` to the template constructor. -/
theorem C3_copy_of_a_held_container_never_returns (E : ValueTypes) (st : Store) (s d : Loc) :
    setValue E 3 st s (Arg.temporary Ty.variant (Value.variant Variant.default))
      = Except.ok (st.set s (Variant.holding Ty.variant (Value.variant Variant.default))) ∧
    (∀ fuel,
      copyConstruct E fuel
          (st.set s (Variant.holding Ty.variant (Value.variant Variant.default))) d s
        = Except.error Err.outOfFuel) ∧
    (∀ fuel, d ≠ s →
      copyAssign E fuel
          (st.set s (Variant.holding Ty.variant (Value.variant Variant.default))) d s
        = Except.error Err.outOfFuel) := by
  refine ⟨rfl, ?_, ?_⟩
  · intro fuel
    simp [copyConstruct, Store.set_same, Variant.copyCtor_variant]
  · intro fuel hne
    have hne2 : s ≠ d := fun h => hne h.symm
    simp [copyAssign, hne2, Store.set_same, Variant.holding, Variant.m_Impl,
      VariantImpl.clone_variant]

/-- C4, as amended.  Let `a` retrieve `v` under `T`, and let `b` be another
object made a copy of `a` by copy construction or by copy assignment.  Then both
retrieve `v` under `T`; after `b.setValue( w )` with `w` anything but `a` handed
over as an rvalue, `a` still does; and after `a.setValue( w )` with `w` anything
but `b` handed over as an rvalue, `b` still does.  When `T` is not `Variant` and `w`
is an argument from which a stored value can be initialised, each of these
operations returns, and the object that was set holds the value of `w`. -/
theorem C4_copies_are_independent (E : ValueTypes) (st : Store) (a b : Loc) (T : SrcType)
    (v : Value) (w : Arg) (hab : a ≠ b) (hv : (st a).value T = Except.ok v) :
    (∀ fuel st1,
      (copyConstruct E fuel st b a = Except.ok st1 ∨
        copyAssign E fuel st b a = Except.ok st1) →
      (st1 a).value T = Except.ok v ∧ (st1 b).value T = Except.ok v ∧
      (w.consumed ≠ some a → ∀ fuel2 st2, setValue E fuel2 st1 b w = Except.ok st2 →
        (st2 a).value T = Except.ok v) ∧
      (w.consumed ≠ some b → ∀ fuel2 st2, setValue E fuel2 st1 a w = Except.ok st2 →
        (st2 b).value T = Except.ok v)) ∧
    (canonical T ≠ Ty.variant → w.initialises = true → ∀ fuel, ∃ st1 st2 st3,
      copyConstruct E (fuel + 4) st b a = Except.ok st1 ∧
      copyAssign E (fuel + 3) st b a = Except.ok st1 ∧
      setValue E (fuel + 7) st1 b w = Except.ok st2 ∧
      setValue E (fuel + 7) st1 a w = Except.ok st3 ∧
      st2 b = Variant.holding w.type w.val ∧
      st3 a = Variant.holding w.type w.val) := by
  constructor
  · intro fuel st1 hcopy
    have h1 : st1 = st.set b (st a) := by
      rcases hcopy with h | h
      · exact copyConstruct_ok E fuel st st1 b a h
      · exact copyAssign_ok E fuel st st1 b a h
    subst h1
    have ha : (st.set b (st a)) a = st a := Store.set_other st b a (st a) hab
    have hb : (st.set b (st a)) b = st a := Store.set_same st b (st a)
    refine ⟨by rw [ha]; exact hv, by rw [hb]; exact hv, ?_, ?_⟩
    · intro hw fuel2 st2 hset
      obtain ⟨p, _, _, h2⟩ := setValue_ok E fuel2 _ st2 b w hset
      subst h2
      rw [Store.set_other _ b a _ hab, Store.afterMove_other _ w a hw, ha]
      exact hv
    · intro hw fuel2 st2 hset
      obtain ⟨p, _, _, h2⟩ := setValue_ok E fuel2 _ st2 a w hset
      subst h2
      rw [Store.set_other _ a b _ (fun h => hab h.symm), Store.afterMove_other _ w b hw, hb]
      exact hv
  · intro hT hw fuel
    have hdyn : (st a).dynamicType ≠ some Ty.variant := by
      cases hs : st a with
      | mk p =>
        rw [hs] at hv
        cases p with
        | nullptr => simp [Variant.dynamicType, Variant.m_Impl]
        | owning impl =>
          simp only [Variant.value, Variant.m_Impl] at hv
          split at hv
          · rename_i hc
            simp [Variant.dynamicType, Variant.m_Impl, hc, hT]
          · cases hv
    exact ⟨_, _, _, copyConstruct_same E fuel st b a hdyn,
      copyAssign_same E fuel st b a hab hdyn,
      setValue_initialises E fuel _ b w hw, setValue_initialises E fuel _ a w hw,
      Store.set_same _ _ _, Store.set_same _ _ _⟩

/-- C4, witness: `a` holds the integer 42, `b` is copy-constructed from it and
then given the integer 7; `a` still retrieves 42 and `b` retrieves 7. -/
theorem C4_copies_are_independent_witness :
    (0 : Loc) ≠ 1 ∧
    ((allEmpty.set 0 (Variant.holding Ty.int (Value.int 42))) 0).value (Ty.plain Ty.int)
      = Except.ok (Value.int 42) ∧
    ∃ st1 st2,
      copyConstruct stdTypes 4 (allEmpty.set 0 (Variant.holding Ty.int (Value.int 42))) 1 0
        = Except.ok st1 ∧
      setValue stdTypes 7 st1 1 (Arg.temporary Ty.int (Value.int 7)) = Except.ok st2 ∧
      (st2 0).value (Ty.plain Ty.int) = Except.ok (Value.int 42) ∧
      st2 1 = Variant.holding Ty.int (Value.int 7) := by
  have h := C4_copies_are_independent stdTypes
    (allEmpty.set 0 (Variant.holding Ty.int (Value.int 42))) 0 1 (Ty.plain Ty.int)
    (Value.int 42) (Arg.temporary Ty.int (Value.int 7)) (by decide) (by decide)
  refine ⟨by decide, by decide, ?_⟩
  obtain ⟨st1, st2, _, h1, _, h2, _, h3, _⟩ := h.2 (by decide) (by decide) 0
  exact ⟨st1, st2, h1, h2, (h.1 4 st1 (Or.inl h1)).2.2.1 (by decide) 7 st2 h2, h3⟩

/-- C4, as stated, fails when `w` is `a` itself handed over as an rvalue.  `a`
holds the integer 42 and `b` is copy-constructed from it; `b.setValue(
std::move( a ) )` returns, `b` then holds the container that `a` was, and `a` is
empty: it no longer retrieves 42. -/
theorem C4_counterexample :
    ((allEmpty.set 0 (Variant.holding Ty.int (Value.int 42))) 0).value (Ty.plain Ty.int)
      = Except.ok (Value.int 42) ∧
    ∃ st1 st2,
      copyConstruct stdTypes 4 (allEmpty.set 0 (Variant.holding Ty.int (Value.int 42))) 1 0
        = Except.ok st1 ∧
      setValue stdTypes 3 st1 1 (Arg.named st1 0 false Category.rvalue) = Except.ok st2 ∧
      (st2 0).isEmpty = true ∧
      (st2 0).value (Ty.plain Ty.int) ≠ Except.ok (Value.int 42) ∧
      (st2 1).value (Ty.plain Ty.variant)
        = Except.ok (Value.variant (Variant.holding Ty.int (Value.int 42))) := by
  refine ⟨by decide,
    (allEmpty.set 0 (Variant.holding Ty.int (Value.int 42))).set 1
      (Variant.holding Ty.int (Value.int 42)), _, rfl, rfl, ?_, ?_, ?_⟩
  · decide
  · decide
  · decide

/-- C5.  Let `a` and `b` be distinct objects.  After `b` is move-constructed
from `a`, and likewise after `a` is move-assigned to `b` whatever `b` held, `a`
is empty and `b` is the container that `a` was: same emptiness, same dynamic
type, same result of every retrieval.  No third object changes. -/
theorem C5_move_transfers_and_empties (st : Store) (a b : Loc) (hab : a ≠ b) :
    ((moveConstruct st b a) a).isEmpty = true ∧
    (moveConstruct st b a) b = st a ∧
    ((moveAssign st b a) a).isEmpty = true ∧
    (moveAssign st b a) b = st a ∧
    ((moveAssign st b a) b).isEmpty = (st a).isEmpty ∧
    ((moveAssign st b a) b).dynamicType = (st a).dynamicType ∧
    (∀ T, ((moveAssign st b a) b).value T = (st a).value T) ∧
    (∀ l, l ≠ a → l ≠ b → moveConstruct st b a l = st l ∧ moveAssign st b a l = st l) := by
  have hmc_b : (moveConstruct st b a) b = st a := by
    simp [moveConstruct, Store.set, Variant.moveCtor, Variant.mk_eta]
  have hma_b : (moveAssign st b a) b = st a := by
    simp [moveAssign, hab, Store.set, Variant.mk_eta]
  refine ⟨?_, hmc_b, ?_, hma_b, by rw [hma_b], by rw [hma_b], ?_, ?_⟩
  · simp [moveConstruct, Store.set, hab, Variant.moveCtor, Variant.isEmpty, Variant.m_Impl]
  · simp [moveAssign, hab, Store.set, Variant.isEmpty, Variant.m_Impl]
  · intro T
    rw [hma_b]
  · intro l hla hlb
    simp [moveConstruct, moveAssign, hab, Store.set, hla, hlb]

/-- C5, witness: `a` holds the integer 42 and is moved into `b`. -/
theorem C5_move_transfers_and_empties_witness :
    (0 : Loc) ≠ 1 ∧
    ((moveConstruct (allEmpty.set 0 (Variant.holding Ty.int (Value.int 42))) 1 0) 0).isEmpty
      = true ∧
    (moveConstruct (allEmpty.set 0 (Variant.holding Ty.int (Value.int 42))) 1 0) 1
      = Variant.holding Ty.int (Value.int 42) ∧
    ((moveAssign (allEmpty.set 0 (Variant.holding Ty.int (Value.int 42))) 1 0) 0).isEmpty
      = true ∧
    (moveAssign (allEmpty.set 0 (Variant.holding Ty.int (Value.int 42))) 1 0) 1
      = Variant.holding Ty.int (Value.int 42) := by
  have h := C5_move_transfers_and_empties
    (allEmpty.set 0 (Variant.holding Ty.int (Value.int 42))) 0 1 (by decide)
  exact ⟨by decide, h.1, h.2.1, h.2.2.1, h.2.2.2.1⟩

/-- C6, where the code departs from it.  `c.setValue( v )` with `v` a named,
non-const container never returns, whatever the fuel, whatever `c` and `v` hold:
the template constructor is chosen to initialise the stored `Variant` from `v`,
and it constructs a `VariantImpl<Variant>` from `v` again. -/
theorem C6_setValue_of_a_named_container_never_returns (E : ValueTypes) (fuel : Nat)
    (st : Store) (c : Loc) (v : Variant) :
    setValue E fuel st c
        { type := Ty.variant, isConst := false, category := Category.lvalue,
          val := Value.variant v }
      = Except.error Err.outOfFuel := by
  have h : Arg.bindsTemplate
      { type := Ty.variant, isConst := false, category := Category.lvalue,
        val := Value.variant v } := ⟨rfl, Or.inl ⟨rfl, rfl⟩⟩
  have h3 := (template_recursion E fuel _ h).2.2.1
  simp only [setValue, canonical_deduced, h3]

/-- C7, where the code departs from it.  `Variant::fromValue<Variant>( x )` with
`x` a named, non-const container never returns, whatever the fuel and whatever
`x` holds. -/
theorem C7_fromValue_of_a_named_container_never_returns (E : ValueTypes) (fuel : Nat)
    (x : Variant) :
    Variant.fromValue E fuel (Ty.plain Ty.variant)
        { type := Ty.variant, isConst := false, category := Category.lvalue,
          val := Value.variant x }
      = Except.error Err.outOfFuel := by
  have h : Arg.bindsTemplate
      { type := Ty.variant, isConst := false, category := Category.lvalue,
        val := Value.variant x } := ⟨rfl, Or.inl ⟨rfl, rfl⟩⟩
  have h3 := (template_recursion E fuel _ h).2.2.1
  have hc : canonical (Ty.plain Ty.variant) = Ty.variant := rfl
  simp only [Variant.fromValue, hc, h3]

/-- C8.  For every target type and argument list, `make_variant<TargetType>(
args... )` is the container obtained by first building `TargetType{ args... }`
and then passing it to the container's constructor: they return alike or not
at all, and what they return has the same emptiness, the same dynamic type and
the same result of every retrieval.  For a target other than `Variant` whose
braced construction yields `t`, both return the container that holds `t` under
the target type; for the target `Variant`, both return the container built. -/
theorem C8_make_variant_agrees_with_wrapping (E : ValueTypes) (TargetType : Ty)
    (args : List Arg) :
    (∀ fuel, make_variant E fuel TargetType args = wrapDirect E fuel TargetType args) ∧
    (∀ fuel c d, make_variant E fuel TargetType args = Except.ok c →
      wrapDirect E fuel TargetType args = Except.ok d →
      c.isEmpty = d.isEmpty ∧ c.dynamicType = d.dynamicType ∧
      ∀ T, c.value T = d.value T) ∧
    (TargetType ≠ Ty.variant → ∀ fuel t, listInit E fuel TargetType args = Except.ok t →
      make_variant E (fuel + 4) TargetType args
        = Except.ok (Variant.holding TargetType t) ∧
      wrapDirect E (fuel + 4) TargetType args
        = Except.ok (Variant.holding TargetType t)) ∧
    (TargetType = Ty.variant → ∀ fuel o,
      listInit E (fuel + 1) TargetType args = Except.ok (Value.variant o) →
      make_variant E (fuel + 1) TargetType args = Except.ok o ∧
      wrapDirect E (fuel + 1) TargetType args = Except.ok o) := by
  have heq : ∀ fuel, make_variant E fuel TargetType args
      = wrapDirect E fuel TargetType args := fun _ => rfl
  refine ⟨heq, ?_, ?_, ?_⟩
  · intro fuel c d hc hd
    rw [heq fuel, hd] at hc
    cases hc
    exact ⟨rfl, rfl, fun _ => rfl⟩
  · intro hT fuel t ht
    have h := make_variant_other E fuel TargetType args t hT ht
    exact ⟨h, by rw [← heq]; exact h⟩
  · intro hT fuel o ho
    subst hT
    have h : make_variant E (fuel + 1) Ty.variant args = Except.ok o := by
      unfold make_variant
      rw [ho]
      exact Variant.init_temporary E fuel o
    exact ⟨h, by rw [← heq]; exact h⟩

/-- C9.  Copy-assigning an object to itself returns and leaves every object as
it was, and so does move-assigning it to itself; in particular the object is
as empty, has the same dynamic type and retrieves the same as before. -/
theorem C9_self_assignment_is_a_no_op (E : ValueTypes) (fuel : Nat) (st : Store) (c : Loc) :
    copyAssign E fuel st c c = Except.ok st ∧
    moveAssign st c c = st ∧
    ((moveAssign st c c) c).isEmpty = (st c).isEmpty ∧
    ((moveAssign st c c) c).dynamicType = (st c).dynamicType ∧
    (∀ T, ((moveAssign st c c) c).value T = (st c).value T) := by
  have h : moveAssign st c c = st := by simp [moveAssign]
  refine ⟨by simp [copyAssign], h, by rw [h], by rw [h], ?_⟩
  intro T
  rw [h]

/-- C11.  A default-constructed container is empty, as a value and as a named
object; `isEmpty` is true exactly when `m_Impl` is null, which is exactly when
the container has no dynamic type.  `isEmpty` is a function of the container
alone and yields only the truth value. -/
theorem C11_default_is_empty :
    Variant.default.isEmpty = true ∧
    (∀ (st : Store) l, ((defaultConstruct st l) l).isEmpty = true) ∧
    (∀ c : Variant, c.isEmpty = true ↔ c.m_Impl = UniquePtr.nullptr) ∧
    (∀ c : Variant, c.isEmpty = true ↔ c.dynamicType = none) ∧
    (∀ c : Variant, c.isEmpty = false ↔ ∃ impl, c.m_Impl = UniquePtr.owning impl) := by
  refine ⟨rfl, ?_, ?_, ?_, ?_⟩
  · intro st l
    simp [defaultConstruct, Store.set_same, Variant.default, Variant.isEmpty, Variant.m_Impl]
  · intro c
    cases c with
    | mk p => cases p <;> simp [Variant.isEmpty, Variant.m_Impl]
  · intro c
    cases c with
    | mk p => cases p <;> simp [Variant.isEmpty, Variant.dynamicType, Variant.m_Impl]
  · intro c
    cases c with
    | mk p => cases p <;> simp [Variant.isEmpty, Variant.m_Impl]

/-- C12, where the code departs from it.  For the stored type `Variant` the
operations that copy a held value never return, whatever the fuel: `clone` of
a `VariantImpl<Variant>`, the copy constructor and the copy assignment of a
container that holds a container, and the value constructor, `setValue` and
`fromValue` given a named non-const container.  Such a holder exists: it is what
`setValue` makes of a temporary container. -/
theorem C12_stored_container_operations_never_return (E : ValueTypes) (fuel : Nat)
    (v : Value) (x : Variant) (st : Store) (d s : Loc) :
    VariantImpl.ctor E (fuel + 3) Ty.variant (Arg.temporary Ty.variant (Value.variant x))
      = Except.ok (VariantImpl.mk Ty.variant (Value.variant x)) ∧
    VariantImpl.clone E fuel (VariantImpl.mk Ty.variant v) = Except.error Err.outOfFuel ∧
    Variant.copyCtor E fuel (Variant.holding Ty.variant v) = Except.error Err.outOfFuel ∧
    (d ≠ s → copyAssign E fuel (st.set s (Variant.holding Ty.variant v)) d s
      = Except.error Err.outOfFuel) ∧
    Variant.valueCtor E fuel
        { type := Ty.variant, isConst := false, category := Category.lvalue,
          val := Value.variant x }
      = Except.error Err.outOfFuel ∧
    VariantImpl.ctor E fuel Ty.variant
        { type := Ty.variant, isConst := false, category := Category.lvalue,
          val := Value.variant x }
      = Except.error Err.outOfFuel := by
  have hb : Arg.bindsTemplate
      { type := Ty.variant, isConst := false, category := Category.lvalue,
        val := Value.variant x } := ⟨rfl, Or.inl ⟨rfl, rfl⟩⟩
  have hr := template_recursion E fuel _ hb
  refine ⟨?_, VariantImpl.clone_variant E fuel v, Variant.copyCtor_variant E fuel v, ?_,
    hr.2.1, hr.2.2.1⟩
  · simp [VariantImpl.ctor, directInit, Variant.init_temporary]
  · intro hne
    have hne2 : s ≠ d := fun h => hne h.symm
    simp [copyAssign, hne2, Store.set_same, Variant.holding, Variant.m_Impl,
      VariantImpl.clone_variant]

/-- C13, where the code departs from it.  `Variant d( s )` with `s` a named
non-const container never returns, whatever the fuel and whatever `s` holds:
the template constructor is the one selected.  With `s` a temporary the result
is the container `s` was; with `s` a const lvalue that is empty or holds a type
other than `Variant` the result equals `s`. -/
theorem C13_construction_from_a_named_container_never_returns (E : ValueTypes)
    (fuel : Nat) (st : Store) (d : Loc) (s : Variant) :
    construct E fuel st d
        { type := Ty.variant, isConst := false, category := Category.lvalue,
          val := Value.variant s }
      = Except.error Err.outOfFuel ∧
    construct E (fuel + 1) st d (Arg.temporary Ty.variant (Value.variant s))
      = Except.ok (st.set d s) ∧
    (s.dynamicType ≠ some Ty.variant →
      construct E (fuel + 5) st d
          { type := Ty.variant, isConst := true, category := Category.lvalue,
            val := Value.variant s }
        = Except.ok (st.set d s)) := by
  refine ⟨?_, ?_, ?_⟩
  · simp only [construct, Variant.init_lvalue]
  · simp only [construct, Variant.init_temporary]
    rfl
  · intro hs
    simp only [construct, Variant.init_const_lvalue, Variant.copyCtor_same E fuel s hs]
    rfl

/-- C14, as amended.  On an occupied container a call of `value<T>()` either
returns the stored value (matching type) or fails the assertion (other type),
and has no other outcome.  On an empty container it does not fail the
assertion: the null `m_Impl` is dereferenced inside the asserted expression,
with undefined behaviour.  The assertion's failure is the outcome of occupied
containers only, and undefined behaviour that of empty ones only. -/
theorem C14_retrieval_outcomes (c : Variant) (T : SrcType) :
    (c.isEmpty = true → c.value T = Except.error RetrievalFailure.undefinedBehaviour) ∧
    (∀ impl, c.m_Impl = UniquePtr.owning impl → impl.T ≠ canonical T →
      c.value T = Except.error RetrievalFailure.assertionFailed) ∧
    (∀ impl, c.m_Impl = UniquePtr.owning impl → impl.T = canonical T →
      c.value T = Except.ok impl.m_Value) ∧
    (c.value T = Except.error RetrievalFailure.assertionFailed → c.isEmpty = false) ∧
    (c.isEmpty = false → c.value T ≠ Except.error RetrievalFailure.undefinedBehaviour) := by
  cases c with
  | mk p =>
    cases p with
    | nullptr => simp [Variant.value, Variant.m_Impl, Variant.isEmpty]
    | owning impl =>
      by_cases h : impl.T = canonical T
      · simp [Variant.value, Variant.m_Impl, Variant.isEmpty, h]
      · simp [Variant.value, Variant.m_Impl, Variant.isEmpty, h]

/-- C14, as stated, fails on an empty container: `value<int>()` on `Variant()`
does not fail the assertion, as `value<bool>()` on a container holding the
integer 42 does; it dereferences the null `m_Impl`, with undefined behaviour. -/
theorem C14_counterexample :
    Variant.default.value (Ty.plain Ty.int)
      = Except.error RetrievalFailure.undefinedBehaviour ∧
    (Variant.holding Ty.int (Value.int 42)).value (Ty.plain Ty.bool)
      = Except.error RetrievalFailure.assertionFailed ∧
    ¬ ∀ (c : Variant) (T : SrcType), c.isEmpty = true →
      c.value T = Except.error RetrievalFailure.assertionFailed := by
  refine ⟨by decide, by decide, ?_⟩
  intro h
  exact absurd (h Variant.default (Ty.plain Ty.int) (by decide)) (by decide)

/-- C16, as amended.  For an argument `v` of a type other than `Variant` and
every spelling `T` of that type, `Variant( v )`, `fromValue<T>( v )` and
`setValue( v )` on a default-constructed object all return, with one and the
same container: occupied, of dynamic type the canonical type of `T`, and
returning the value of `v` from `value<T>()`. -/
theorem C16_three_ways_agree (E : ValueTypes) (fuel : Nat) (st : Store) (l : Loc) (v : Arg)
    (T : SrcType) (hv : v.type ≠ Ty.variant) (hT : canonical T = v.type) :
    ∃ c st2,
      Variant.init E (fuel + 4) v = Except.ok c ∧
      Variant.fromValue E (fuel + 2) T v = Except.ok c ∧
      setValue E (fuel + 2) (defaultConstruct st l) l v = Except.ok st2 ∧
      st2 l = c ∧
      c.isEmpty = false ∧ c.dynamicType = some (canonical T) ∧
      c.value T = Except.ok v.val := by
  refine ⟨Variant.holding v.type v.val, _, ?_, ?_,
    setValue_same E fuel (defaultConstruct st l) l v hv, Store.set_same _ _ _, rfl, ?_, ?_⟩
  · rw [Variant.init_other E (fuel + 3) v hv, Variant.valueCtor_same E fuel v hv]
    rfl
  · have hd : directInit E (fuel + 1) (canonical T) v = Except.ok v.val := by
      rw [hT]
      exact directInit_same E fuel v.type v hv rfl
    rw [Variant.fromValue_of_directInit E (fuel + 1) T v v.val hd, hT]
  · simp [Variant.dynamicType, Variant.holding, Variant.m_Impl, VariantImpl.T, hT]
  · exact Variant.value_owning (VariantImpl.mk v.type v.val) T hT.symm

/-- C16, witness: the integer 42, a named non-const object, retrieved as `int`. -/
theorem C16_three_ways_agree_witness :
    Ty.int ≠ Ty.variant ∧ canonical (Ty.plain Ty.int) = Ty.int ∧
    ∃ c st2,
      Variant.init stdTypes 4
          { type := Ty.int, isConst := false, category := Category.lvalue,
            val := Value.int 42 } = Except.ok c ∧
      Variant.fromValue stdTypes 2 (Ty.plain Ty.int)
          { type := Ty.int, isConst := false, category := Category.lvalue,
            val := Value.int 42 } = Except.ok c ∧
      setValue stdTypes 2 (defaultConstruct allEmpty 0) 0
          { type := Ty.int, isConst := false, category := Category.lvalue,
            val := Value.int 42 } = Except.ok st2 ∧
      st2 0 = c ∧
      c.isEmpty = false ∧ c.dynamicType = some (canonical (Ty.plain Ty.int)) ∧
      c.value (Ty.plain Ty.int) = Except.ok (Value.int 42) :=
  ⟨by decide, by decide,
   C16_three_ways_agree stdTypes 0 allEmpty 0
    { type := Ty.int, isConst := false, category := Category.lvalue, val := Value.int 42 }
    (Ty.plain Ty.int) (by decide) (by decide)⟩

/-- C16, as stated, fails for `T = Variant`.  For a temporary empty container
`v`, `Variant( v )` is the move constructor and gives an empty container, while
`fromValue<Variant>( v )` gives a container that holds an empty container: they
differ in emptiness, whatever the fuel. -/
theorem C16_counterexample :
    Variant.init stdTypes 4 (Arg.temporary Ty.variant (Value.variant Variant.default))
      = Except.ok Variant.default ∧
    Variant.fromValue stdTypes 4 (Ty.plain Ty.variant)
        (Arg.temporary Ty.variant (Value.variant Variant.default))
      = Except.ok (Variant.holding Ty.variant (Value.variant Variant.default)) ∧
    ¬ ∃ fuel1 fuel2 c d,
      Variant.init stdTypes fuel1 (Arg.temporary Ty.variant (Value.variant Variant.default))
        = Except.ok c ∧
      Variant.fromValue stdTypes fuel2 (Ty.plain Ty.variant)
          (Arg.temporary Ty.variant (Value.variant Variant.default))
        = Except.ok d ∧
      c.isEmpty = d.isEmpty := by
  refine ⟨by decide, by decide, ?_⟩
  rintro ⟨fuel1, fuel2, c, d, h1, h2, h3⟩
  have hc : c.isEmpty = true := by
    cases fuel1 with
    | zero => simp [Variant.init] at h1
    | succ n =>
      rw [Variant.init_temporary] at h1
      cases h1; rfl
  obtain ⟨p, _, hd⟩ := Variant.fromValue_ok stdTypes fuel2 _ _ d h2
  subst hd
  rw [hc] at h3
  simp [Variant.isEmpty, Variant.m_Impl] at h3

end VariantSpec
